import Mathlib

/-!
Verification of the connection broker of `node-webworker`
(`src/lib/webworker.js`) against its natural-language specification.

The broker is shallowly embedded: the three JS object maps held by
`WorkerMaster` (`workers`, `workerStreams`, `workerMsgQueue`) become
association lists keyed by `Int` (JS pids are numbers), MessagePack
values become the inductive `JVal`, and each source function becomes a
pure Lean function on an explicit `MasterState`.  Invocation of a worker
handle's `onmessage` callback is observed through an append-only
`callbackLog`, and `sys.debug` logging plus control-flow branches are
observed through explicit outcome types.

`lib/webworker-utils.js` is not part of the sources: the message type
constants, `isValidMessage` and the `MsgStream` framing live there.  The
definitions that replace them are modelled from the spec and marked as
such in their doc comments.
-/

/-- MessagePack-decodable values, as far as the broker inspects them:
numbers, strings, arrays and a null/other catch-all.  `m[0] !== tag` and
`typeof m[1] !== 'number'` checks only need these shapes. -/
inductive JVal where
  | null : JVal
  | num (n : Int) : JVal
  | str (s : String) : JVal
  | arr (elems : List JVal) : JVal

/-- Modelled from the spec: the message-type tags live in
`webworker-utils.js`, which is not under `src/`.  Scenario B of the spec
fixes `NOOP = 0`; the spec otherwise only requires the three tags to be
distinct integers. -/
def MSGTYPE_NOOP : Int := 0

/-- Modelled from the spec: handshake tag, distinct from the others
(value itself unconstrained by the spec). -/
def MSGTYPE_HANDSHAKE : Int := 1

/-- Modelled from the spec: user-message tag, distinct from the others
(value itself unconstrained by the spec). -/
def MSGTYPE_USER : Int := 100

/-- Modelled from the spec: `wwutil.isValidMessage` is defined in
`webworker-utils.js`, which is not under `src/`.  Spec section 6 defines a
valid unit as an ordered two-element sequence whose first element is an
integer message type and whose second is an arbitrary payload. -/
def isValidMessage : JVal → Bool
  | JVal.arr [JVal.num _, _] => true
  | _ => false

/-- The state of one `MsgStream` bound into `workerStreams`: which
connection it wraps, every envelope sent on it (in order), and whether it
has been ended. -/
structure StreamSt where
  connId : Nat
  sent : List JVal
  closed : Bool

/-- The fields of a `Worker` object the master reads during dispatch:
whether the user has assigned `onmessage`. -/
structure WorkerObj where
  onmessage : Bool
deriving DecidableEq

/-- JS object-property lookup on an association list (`workers[pid]`):
the most recent binding for the key wins; `none` models `undefined`. -/
def getk (m : List (Int × α)) (k : Int) : Option α :=
  match m with
  | [] => none
  | (k2, v) :: t => if k2 = k then some v else getk t k

/-- JS object-property assignment (`workers[pid] = w`): the new binding
shadows any previous one. -/
def setk (m : List (Int × α)) (k : Int) (v : α) : List (Int × α) :=
  (k, v) :: m

/-- JS `delete workerMsgQueue[pid]`: removes every binding for the key. -/
def delk (m : List (Int × α)) (k : Int) : List (Int × α) :=
  match m with
  | [] => []
  | (k2, v) :: t => if k2 = k then delk t k else (k2, v) :: delk t k

/-- The mutable state of the `WorkerMaster` singleton: the three pid-keyed
maps of `webworker.js` lines 50-56, plus the log of `onmessage`
invocations used to observe callback dispatch. -/
structure MasterState where
  workers : List (Int × WorkerObj)
  workerStreams : List (Int × StreamSt)
  workerMsgQueue : List (Int × List JVal)
  callbackLog : List (Int × JVal)

/-- Errors surfaced to the caller; `assert.ok(workers[pid], ...)` throwing
on a missing registry record is `UnknownWorker`. -/
inductive WWError where
  | UnknownWorker : WWError
deriving DecidableEq

/-- The USER envelope wrapped around a payload: `[wwutil.MSGTYPE_USER, msg]`
(lines 69 and 148). -/
def userEnv (m : JVal) : JVal := JVal.arr [JVal.num MSGTYPE_USER, m]

/-- `WorkerMaster.addWorker` (lines 59-61): unconditional
`workers[pid] = w`. -/
def addWorker (st : MasterState) (pid : Int) (w : WorkerObj) : MasterState :=
  { st with workers := setk st.workers pid w }

/-- `WorkerMaster.postMessage` (lines 64-78).  The assert throws before
any mutation when the pid is unregistered; with a bound stream the USER
envelope is sent immediately; otherwise the raw payload is appended to
the (lazily created) pending queue. -/
def postMessage (st : MasterState) (pid : Int) (msg : JVal) :
    MasterState × Option WWError :=
  match getk st.workers pid with
  | none => (st, some WWError.UnknownWorker)
  | some _ =>
    match getk st.workerStreams pid with
    | some s =>
      ({ st with workerStreams := (setk st.workerStreams pid
            { s with sent := s.sent ++ [userEnv msg] }) },
       none)
    | none =>
      ({ st with workerMsgQueue := (setk st.workerMsgQueue pid
            (((getk st.workerMsgQueue pid).getD []) ++ [msg])) },
       none)

/-- Which branch of `handleMessage` ran: the assert threw, the invalid
message was logged and dropped, a NOOP was discarded, a USER payload was
delivered to `onmessage` or dropped because none was set, or the default
branch logged an unexpected type. -/
inductive HandleOutcome where
  | assertFailed : HandleOutcome
  | invalidMessage : HandleOutcome
  | noop : HandleOutcome
  | userDelivered (payload : JVal) : HandleOutcome
  | userDropped : HandleOutcome
  | unexpected : HandleOutcome

/-- `WorkerMaster.handleMessage` (lines 84-109): assert the pid is
registered, drop invalid messages (log and return, with no `s.end()`),
then switch on the type tag.  The `isValidMessage` guard and the
`msg[0]`/`msg[1]` projections are fused into one pattern match: a message
passes the (spec-modelled) validity check exactly when it has the shape
`arr [num t, payload]`. -/
def handleMessage (st : MasterState) (pid : Int) (msg : JVal) :
    MasterState × HandleOutcome :=
  match getk st.workers pid with
  | none => (st, HandleOutcome.assertFailed)
  | some ww =>
    match msg with
    | JVal.arr [JVal.num t, payload] =>
      if t = MSGTYPE_NOOP then (st, HandleOutcome.noop)
      else if t = MSGTYPE_USER then
        if ww.onmessage then
          ({ st with callbackLog := st.callbackLog ++ [(pid, payload)] },
           HandleOutcome.userDelivered payload)
        else (st, HandleOutcome.userDropped)
      else (st, HandleOutcome.unexpected)
    | _ => (st, HandleOutcome.invalidMessage)

/-- Result of the one-shot handshake listener on a new connection: either
the socket was ended (`s.end()`), or the connection was bound to `pid`
and the steady-state `handleMessage` listener installed. -/
inductive HandshakeOutcome where
  | closed : HandshakeOutcome
  | bound (pid : Int) : HandshakeOutcome
deriving DecidableEq

/-- The connection handler's handshake listener (lines 117-153): the
first message must be a two-element array `[MSGTYPE_HANDSHAKE, pid]` with
numeric `pid` (lines 118-126), the pid must be registered and not already
in `workerStreams` (lines 129-133); on success the stream is stored, the
listener swapped for `handleMessage`, the pending queue flushed in order
as USER envelopes and deleted (lines 135-152). -/
def handshake (st : MasterState) (connId : Nat) (m : JVal) :
    MasterState × HandshakeOutcome :=
  match m with
  | JVal.arr [JVal.num t, p2] =>
    if t = MSGTYPE_HANDSHAKE then
      match p2 with
      | JVal.num pid =>
        if (getk st.workers pid).isNone || (getk st.workerStreams pid).isSome then
          (st, HandshakeOutcome.closed)
        else
          ({ st with
              workerStreams := (setk st.workerStreams pid
                  ⟨connId, ((getk st.workerMsgQueue pid).getD []).map userEnv, false⟩),
              workerMsgQueue := delk st.workerMsgQueue pid },
           HandshakeOutcome.bound pid)
      | _ => (st, HandshakeOutcome.closed)
    else (st, HandshakeOutcome.closed)
  | _ => (st, HandshakeOutcome.closed)

/-- The well-formed-handshake test the listener performs, as one Boolean:
two-element array, handshake tag, numeric pid, pid registered, pid not
already bound. -/
def goodHandshake (st : MasterState) (m : JVal) : Bool :=
  match m with
  | JVal.arr [JVal.num t, JVal.num pid] =>
    decide (t = MSGTYPE_HANDSHAKE) && (getk st.workers pid).isSome
      && (getk st.workerStreams pid).isNone
  | _ => false

/-- The master-level operations that can touch the three maps after
construction: an `addWorker` call, a `postMessage` call, a new connection
delivering its first message, and a steady-state message arriving for a
bound pid. -/
inductive Event where
  | addW (pid : Int) (w : WorkerObj) : Event
  | post (pid : Int) (msg : JVal) : Event
  | connect (connId : Nat) (firstMsg : JVal) : Event
  | recv (pid : Int) (msg : JVal) : Event

/-- One master-level operation applied to the state (outcomes and thrown
errors leave the state as the source leaves it). -/
def step (st : MasterState) : Event → MasterState
  | Event.addW pid w => addWorker st pid w
  | Event.post pid m => (postMessage st pid m).1
  | Event.connect c m => (handshake st c m).1
  | Event.recv pid m => (handleMessage st pid m).1

/-- A sequence of master-level operations applied in order. -/
def run (st : MasterState) : List Event → MasterState
  | [] => st
  | e :: es => run (step st e) es

/-- The connection currently bound to a pid, if any. -/
def boundConn (st : MasterState) (pid : Int) : Option Nat :=
  (getk st.workerStreams pid).map StreamSt.connId

/-- A sequence of `postMessage` calls for one pid, ignoring returned
errors (state threading only). -/
def runPosts (pid : Int) : MasterState → List JVal → MasterState
  | st, [] => st
  | st, m :: rest => runPosts pid (postMessage st pid m).1 rest

/-- The observable side-effecting steps of the `Worker` constructor
(lines 161-198), in source order: lazily construct the master singleton
(165-167), spawn the child process (174-178), capture `cp.pid` into
`cp_pid` (182), attach the stdout/stderr/exit relays (184-195), and
finally register the worker with `master.addWorker(cp.pid, self)` (197). -/
inductive CtorAction where
  | createMaster : CtorAction
  | spawnProcess : CtorAction
  | capturePid : CtorAction
  | attachRelays : CtorAction
  | registerWorker : CtorAction
deriving DecidableEq, BEq

/-- The `Worker` constructor's action sequence, depending on whether the
master singleton already exists. -/
def workerCtorTrace (masterExists : Bool) : List CtorAction :=
  (if masterExists then [] else [CtorAction.createMaster]) ++
    [CtorAction.spawnProcess, CtorAction.capturePid, CtorAction.attachRelays,
     CtorAction.registerWorker]

/-- `occursBefore a b l`: some occurrence of `a` in `l` is followed,
strictly later, by an occurrence of `b`. -/
def occursBefore (a b : CtorAction) : List CtorAction → Bool
  | [] => false
  | x :: xs => if x = a then xs.contains b else occursBefore a b xs

/-- The one field of the `ChildProcess` object the worker handle reads:
`cp.pid`, which node resets to null when the process terminates (source
comment, lines 180-181). -/
structure ChildProc where
  pid : Option Int
deriving DecidableEq

/-- A freshly spawned child process: `cp.pid` holds the OS pid. -/
def spawnChild (osPid : Int) : ChildProc := ⟨some osPid⟩

/-- Process termination: node sets `cp.pid` to null (source comment,
lines 180-181, the reason `cp_pid` is saved separately). -/
def childExit (_ : ChildProc) : ChildProc := ⟨none⟩

/-- `Worker.postMessage` (lines 170-172): forwards `cp.pid` to
`master.postMessage`.  When `cp.pid` is null, `workers[null]` is
`undefined` for a registry keyed by numeric pids, so the assert on line 65
throws: the `none` branch is that failed lookup. -/
def workerPostMessage (st : MasterState) (cp : ChildProc) (msg : JVal) :
    MasterState × Option WWError :=
  match cp.pid with
  | some p => postMessage st p msg
  | none => (st, some WWError.UnknownWorker)

/-- A worker handle with `onmessage` assigned. -/
def exWorker : WorkerObj := ⟨true⟩

/-- A worker handle with `onmessage` never assigned. -/
def exWorkerSilent : WorkerObj := ⟨false⟩

/-- Master state with no workers at all. -/
def exEmpty : MasterState := ⟨[], [], [], []⟩

/-- Master state with pid 4321 registered (with callback), nothing bound,
no pending queue. -/
def exRegistered : MasterState := ⟨[(4321, exWorker)], [], [], []⟩

/-- Master state with pid 7 registered and bound to connection 1. -/
def exBound : MasterState := ⟨[(7, exWorker)], [(7, ⟨1, [], false⟩)], [], []⟩

/-- Master state with pid 8 registered whose handle has no `onmessage`. -/
def exSilentSt : MasterState := ⟨[(8, exWorkerSilent)], [], [], []⟩

/-- Master state with pid 5 already registered, for the duplicate
registration counterexample. -/
def exDup : MasterState := ⟨[(5, exWorker)], [], [], []⟩

/-- Master state with pid 9 registered and bound to connection 2. -/
def exSt3 : MasterState := ⟨[(9, exWorker)], [(9, ⟨2, [], false⟩)], [], []⟩

/-- A sample operation sequence thrown at `exSt3`: a post to the bound
pid, a rival handshake for pid 9 on connection 5, a re-registration, and
a steady-state USER message. -/
def exEvs : List Event :=
  [Event.post 9 JVal.null,
   Event.connect 5 (JVal.arr [JVal.num MSGTYPE_HANDSHAKE, JVal.num 9]),
   Event.addW 9 exWorkerSilent,
   Event.recv 9 (JVal.arr [JVal.num MSGTYPE_USER, JVal.null])]

/-- Payloads posted before the handshake in the flush example. -/
def exPre : List JVal := [JVal.num 10, JVal.num 20]

/-- Payloads posted after the handshake in the flush example. -/
def exPost : List JVal := [JVal.num 30]

/-- The state of the flush example right after pid 4321's handshake on
connection 2, with `exPre` already posted. -/
def exBind : MasterState :=
  (handshake (runPosts 4321 exRegistered exPre) 2
    (JVal.arr [JVal.num MSGTYPE_HANDSHAKE, JVal.num 4321])).1

theorem getk_setk_self (m : List (Int × α)) (k : Int) (v : α) :
    getk (setk m k v) k = some v := by
  simp [getk, setk]

theorem getk_setk_ne (m : List (Int × α)) (k k2 : Int) (v : α) (h : k ≠ k2) :
    getk (setk m k v) k2 = getk m k2 := by
  simp [getk, setk, h]

theorem getk_delk_self (m : List (Int × α)) (k : Int) :
    getk (delk m k) k = none := by
  induction m with
  | nil => simp [delk, getk]
  | cons p t ih =>
    obtain ⟨k2, v⟩ := p
    by_cases h : k2 = k
    · simpa [delk, h] using ih
    · simpa [delk, getk, h] using ih

theorem getk_delk_ne (m : List (Int × α)) (k k2 : Int) (h : k ≠ k2) :
    getk (delk m k) k2 = getk m k2 := by
  induction m with
  | nil => rfl
  | cons p t ih =>
    obtain ⟨k3, v⟩ := p
    by_cases h2 : k3 = k
    · simp [delk, getk, h2, h, ih]
    · by_cases h3 : k3 = k2
      · simp [delk, getk, h2, h3, Ne.symm h]
      · simp [delk, getk, h2, h3, ih]

/-- Claim C4: `postMessage` on an identity with no registry record fails
with an explicit `UnknownWorker` error surfaced to the caller, and
mutates no state: the returned state is exactly the input state, so the
workers map, the bound-channel map and all pending queues are unchanged. -/
theorem postMessage_unknown_worker (st : MasterState) (pid : Int) (msg : JVal)
    (hw : getk st.workers pid = none) :
    postMessage st pid msg = (st, some WWError.UnknownWorker) := by
  simp [postMessage, hw]

theorem postMessage_unknown_worker_witness :
    getk exEmpty.workers 99 = none
    ∧ postMessage exEmpty 99 JVal.null = (exEmpty, some WWError.UnknownWorker) :=
  ⟨rfl, postMessage_unknown_worker exEmpty 99 JVal.null rfl⟩

/-- Counterexample to claim C5: registering pid 5 a second time does not
fail; `addWorker` silently replaces the existing record (the registry now
maps 5 to the new object, which differs from the old one). -/
theorem addWorker_overwrite_counterexample :
    getk (addWorker exDup 5 exWorkerSilent).workers 5 = some exWorkerSilent
    ∧ exWorkerSilent ≠ exWorker := by
  refine ⟨rfl, by decide⟩

/-- Claim C5 (amended): `addWorker` inserts unconditionally — an existing
record for the identity is silently replaced, with no `DuplicateIdentity`
failure; the bound-channel map and pending queues are untouched, so a
fresh identity starts with no bound channel and an empty pending queue. -/
theorem addWorker_unconditional_insert (st : MasterState) (pid : Int) (w : WorkerObj) :
    getk (addWorker st pid w).workers pid = some w
    ∧ (addWorker st pid w).workerStreams = st.workerStreams
    ∧ (addWorker st pid w).workerMsgQueue = st.workerMsgQueue :=
  ⟨getk_setk_self _ _ _, rfl, rfl⟩

/-- Counterexample to claim C6: a post-handshake envelope that fails the
validity check (here the bare number 5, not an envelope array) does not
close the bound channel — `handleMessage` logs and returns, the stream
stays present and not ended, and the state is unchanged. -/
theorem handleMessage_invalid_no_close_counterexample :
    handleMessage exBound 7 (JVal.num 5) = (exBound, HandleOutcome.invalidMessage)
    ∧ ¬ ((getk (handleMessage exBound 7 (JVal.num 5)).1.workerStreams 7).map
          StreamSt.closed = some true) := by
  refine ⟨rfl, by decide⟩

/-- Claim C6 (amended): a post-handshake envelope on a bound channel that
fails shape/type validation is logged and ignored — the connection is NOT
closed, the state (registry, channels, queues, callback log) is exactly
unchanged, and nothing escalates beyond that connection. -/
theorem handleMessage_invalid_ignored (st : MasterState) (pid : Int) (ww : WorkerObj)
    (msg : JVal) (hw : getk st.workers pid = some ww)
    (hv : isValidMessage msg = false) :
    handleMessage st pid msg = (st, HandleOutcome.invalidMessage) := by
  cases msg with
  | null => simp [handleMessage, hw]
  | num n => simp [handleMessage, hw]
  | str s => simp [handleMessage, hw]
  | arr l =>
    match l with
    | [] => simp [handleMessage, hw]
    | [a] => cases a <;> simp [handleMessage, hw]
    | [a, b] =>
      cases a with
      | num t => simp [isValidMessage] at hv
      | null => simp [handleMessage, hw]
      | str s2 => simp [handleMessage, hw]
      | arr l2 => simp [handleMessage, hw]
    | a :: b :: c :: rest => cases a <;> simp [handleMessage, hw]

theorem handleMessage_invalid_ignored_witness :
    getk exBound.workers 7 = some exWorker
    ∧ isValidMessage (JVal.arr []) = false
    ∧ handleMessage exBound 7 (JVal.arr []) = (exBound, HandleOutcome.invalidMessage) :=
  ⟨rfl, rfl, handleMessage_invalid_ignored exBound 7 exWorker (JVal.arr []) rfl rfl⟩

/-- Claim C8: steady-state dispatch on a bound channel handles every
valid envelope by type: NOOP is discarded with no state change, USER
invokes the record's callback with the decoded payload (observed on the
callback log), and any other tag is logged and ignored with no state
change — in particular no channel is closed and no fault is raised. -/
theorem steady_state_dispatch (st : MasterState) (pid : Int) (ww : WorkerObj) (t : Int)
    (payload : JVal) (hw : getk st.workers pid = some ww) (hcb : ww.onmessage = true)
    (ht1 : t ≠ MSGTYPE_NOOP) (ht2 : t ≠ MSGTYPE_USER) :
    handleMessage st pid (JVal.arr [JVal.num MSGTYPE_NOOP, payload]) =
      (st, HandleOutcome.noop)
    ∧ handleMessage st pid (JVal.arr [JVal.num MSGTYPE_USER, payload]) =
        ({ st with callbackLog := st.callbackLog ++ [(pid, payload)] },
         HandleOutcome.userDelivered payload)
    ∧ handleMessage st pid (JVal.arr [JVal.num t, payload]) =
        (st, HandleOutcome.unexpected) := by
  refine ⟨?_, ?_, ?_⟩
  · simp [handleMessage, hw, MSGTYPE_NOOP]
  · simp [handleMessage, hw, hcb, MSGTYPE_NOOP, MSGTYPE_USER]
  · simp [MSGTYPE_NOOP] at ht1
    simp [MSGTYPE_USER] at ht2
    simp [handleMessage, hw, MSGTYPE_NOOP, MSGTYPE_USER, ht1, ht2]

theorem steady_state_dispatch_witness :
    getk exRegistered.workers 4321 = some exWorker
    ∧ (handleMessage exRegistered 4321 (JVal.arr [JVal.num MSGTYPE_NOOP, JVal.null]) =
        (exRegistered, HandleOutcome.noop)
      ∧ handleMessage exRegistered 4321 (JVal.arr [JVal.num MSGTYPE_USER, JVal.null]) =
          ({ exRegistered with
              callbackLog := exRegistered.callbackLog ++ [((4321 : Int), JVal.null)] },
           HandleOutcome.userDelivered JVal.null)
      ∧ handleMessage exRegistered 4321 (JVal.arr [JVal.num 7, JVal.null]) =
          (exRegistered, HandleOutcome.unexpected)) :=
  ⟨rfl, steady_state_dispatch exRegistered 4321 exWorker 7 JVal.null rfl rfl
    (by decide) (by decide)⟩

/-- Claim C9: a USER envelope dispatched for a bound identity whose
handle has no `onmessage` callback set is silently discarded — no
buffering, no error, and the state (registry, channels, queues,
callback log) is exactly unchanged. -/
theorem user_message_dropped_without_callback (st : MasterState) (pid : Int)
    (ww : WorkerObj) (payload : JVal) (hw : getk st.workers pid = some ww)
    (hcb : ww.onmessage = false) :
    handleMessage st pid (JVal.arr [JVal.num MSGTYPE_USER, payload]) =
      (st, HandleOutcome.userDropped) := by
  simp [handleMessage, hw, hcb, MSGTYPE_NOOP, MSGTYPE_USER]

theorem user_message_dropped_without_callback_witness :
    getk exSilentSt.workers 8 = some exWorkerSilent
    ∧ exWorkerSilent.onmessage = false
    ∧ handleMessage exSilentSt 8 (JVal.arr [JVal.num MSGTYPE_USER, JVal.null]) =
        (exSilentSt, HandleOutcome.userDropped) :=
  ⟨rfl, rfl,
   user_message_dropped_without_callback exSilentSt 8 exWorkerSilent JVal.null rfl rfl⟩

/-- Claim C10: after the child process terminates, node nulls `cp.pid`,
so `Worker.postMessage` looks the registry up with null and the
existence assert fails with `UnknownWorker`, leaving all state unchanged
— even though the registry record keyed by the original pid still
exists. -/
theorem postMessage_after_exit (st : MasterState) (p : Int) (w : WorkerObj)
    (msg : JVal) (hw : getk st.workers p = some w) :
    workerPostMessage st (childExit (spawnChild p)) msg =
      (st, some WWError.UnknownWorker)
    ∧ getk (workerPostMessage st (childExit (spawnChild p)) msg).1.workers p = some w :=
  ⟨rfl, hw⟩

theorem postMessage_after_exit_witness :
    getk exRegistered.workers 4321 = some exWorker
    ∧ (workerPostMessage exRegistered (childExit (spawnChild 4321)) JVal.null =
        (exRegistered, some WWError.UnknownWorker)
      ∧ getk (workerPostMessage exRegistered (childExit (spawnChild 4321))
          JVal.null).1.workers 4321 = some exWorker) :=
  ⟨rfl, postMessage_after_exit exRegistered 4321 exWorker JVal.null rfl⟩

/-- Claim C2: a new connection whose first message is not exactly a
two-element array `[HANDSHAKE, pid]` with numeric pid naming a
registered, unbound identity is closed: the handshake listener calls
`s.end()`, the connection never becomes bound (so the steady-state
listener is never installed), and the whole master state — workers map,
bound-channel map and pending queues — is returned unchanged. -/
theorem handshake_invalid_closes (st : MasterState) (connId : Nat) (m : JVal)
    (hv : goodHandshake st m = false) :
    handshake st connId m = (st, HandshakeOutcome.closed) := by
  cases m with
  | null => rfl
  | num n => rfl
  | str s => rfl
  | arr l =>
    match l with
    | [] => rfl
    | [a] => cases a <;> rfl
    | a :: b :: c :: rest => cases a <;> rfl
    | [a, b] =>
      cases a with
      | null => rfl
      | str s2 => rfl
      | arr l2 => rfl
      | num t =>
        by_cases ht : t = MSGTYPE_HANDSHAKE
        · subst ht
          cases b with
          | null => simp [handshake]
          | str s2 => simp [handshake]
          | arr l2 => simp [handshake]
          | num pid =>
            rcases hww : getk st.workers pid with _ | w
            · simp [handshake, hww]
            · rcases hss : getk st.workerStreams pid with _ | s
              · exfalso
                simp [goodHandshake, hww, hss] at hv
              · simp [handshake, hww, hss]
        · simp [handshake, ht]

theorem handshake_invalid_closes_witness :
    goodHandshake exRegistered (JVal.arr [JVal.num 0, JVal.num 99]) = false
    ∧ handshake exRegistered 3 (JVal.arr [JVal.num 0, JVal.num 99]) =
        (exRegistered, HandshakeOutcome.closed) :=
  ⟨rfl,
   handshake_invalid_closes exRegistered 3 (JVal.arr [JVal.num 0, JVal.num 99]) rfl⟩

/-- Counterexample to claim C7: in the `Worker` constructor the child
process is spawned (line 174) strictly before `master.addWorker` runs
(line 197) — registration does NOT precede the launch; both actions do
occur in the constructor. -/
theorem worker_ctor_register_before_spawn_counterexample :
    occursBefore CtorAction.registerWorker CtorAction.spawnProcess
      (workerCtorTrace true) = false
    ∧ (workerCtorTrace true).contains CtorAction.registerWorker = true
    ∧ (workerCtorTrace true).contains CtorAction.spawnProcess = true := by
  decide

/-- Claim C7 (amended): constructing a Worker handle registers its record
synchronously within the constructor, but strictly AFTER the worker
process is launched (spawn precedes registration in the constructor's
action sequence, whether or not the master already exists).  Because the
whole constructor runs before any connection event is processed, a
handshake for the identity arriving afterwards still finds the record
registered and (if unbound) binds successfully. -/
theorem worker_ctor_registration (b : Bool) (st : MasterState) (pid : Int)
    (w : WorkerObj) (connId : Nat) (hs : getk st.workerStreams pid = none) :
    occursBefore CtorAction.spawnProcess CtorAction.registerWorker
      (workerCtorTrace b) = true
    ∧ (handshake (addWorker st pid w) connId
        (JVal.arr [JVal.num MSGTYPE_HANDSHAKE, JVal.num pid])).2 =
        HandshakeOutcome.bound pid := by
  constructor
  · cases b <;> rfl
  · have hw2 : getk (addWorker st pid w).workers pid = some w := getk_setk_self _ _ _
    have hs2 : getk (addWorker st pid w).workerStreams pid = none := hs
    simp [handshake, hw2, hs2]

theorem worker_ctor_registration_witness :
    getk exEmpty.workerStreams 6 = none
    ∧ (occursBefore CtorAction.spawnProcess CtorAction.registerWorker
        (workerCtorTrace false) = true
      ∧ (handshake (addWorker exEmpty 6 exWorker) 4
          (JVal.arr [JVal.num MSGTYPE_HANDSHAKE, JVal.num 6])).2 =
          HandshakeOutcome.bound 6) :=
  ⟨rfl, worker_ctor_registration false exEmpty 6 exWorker 4 rfl⟩

theorem postMessage_unbound (st : MasterState) (pid : Int) (w : WorkerObj) (m : JVal)
    (hw : getk st.workers pid = some w) (hs : getk st.workerStreams pid = none) :
    postMessage st pid m =
      ({ st with workerMsgQueue := (setk st.workerMsgQueue pid
            (((getk st.workerMsgQueue pid).getD []) ++ [m])) }, none) := by
  simp [postMessage, hw, hs]

theorem runPosts_unbound (pid : Int) (w : WorkerObj) (pre : List JVal) :
    ∀ st : MasterState, getk st.workers pid = some w →
    getk st.workerStreams pid = none →
    (runPosts pid st pre).workers = st.workers
    ∧ (runPosts pid st pre).workerStreams = st.workerStreams
    ∧ ((getk (runPosts pid st pre).workerMsgQueue pid).getD []) =
        ((getk st.workerMsgQueue pid).getD []) ++ pre := by
  induction pre with
  | nil => intro st hw hs; exact ⟨rfl, rfl, by simp [runPosts]⟩
  | cons m rest ih =>
    intro st hw hs
    have hpost := postMessage_unbound st pid w m hw hs
    obtain ⟨ha, hb, hc⟩ :=
      ih { st with workerMsgQueue := (setk st.workerMsgQueue pid
            (((getk st.workerMsgQueue pid).getD []) ++ [m])) } hw hs
    rw [runPosts, hpost]
    refine ⟨ha, hb, ?_⟩
    rw [hc, getk_setk_self]
    simp

theorem runPosts_bound (pid : Int) (w : WorkerObj) (post : List JVal) :
    ∀ (st : MasterState) (s : StreamSt), getk st.workers pid = some w →
    getk st.workerStreams pid = some s →
    getk (runPosts pid st post).workerStreams pid =
      some ⟨s.connId, s.sent ++ post.map userEnv, s.closed⟩ := by
  induction post with
  | nil => intro st s hw hs; simpa [runPosts] using hs
  | cons m rest ih =>
    intro st s hw hs
    have hpost : postMessage st pid m =
        ({ st with workerStreams := (setk st.workerStreams pid
              { s with sent := s.sent ++ [userEnv m] }) }, none) := by
      simp [postMessage, hw, hs]
    have h2 := ih
      { st with workerStreams := (setk st.workerStreams pid
          { s with sent := s.sent ++ [userEnv m] }) }
      { s with sent := s.sent ++ [userEnv m] } hw (getk_setk_self _ _ _)
    rw [runPosts, hpost]
    simpa using h2

theorem handshake_success (st : MasterState) (connId : Nat) (pid : Int) (w : WorkerObj)
    (hw : getk st.workers pid = some w) (hs : getk st.workerStreams pid = none) :
    handshake st connId (JVal.arr [JVal.num MSGTYPE_HANDSHAKE, JVal.num pid]) =
      ({ st with
          workerStreams := (setk st.workerStreams pid
            ⟨connId, ((getk st.workerMsgQueue pid).getD []).map userEnv, false⟩),
          workerMsgQueue := delk st.workerMsgQueue pid },
       HandshakeOutcome.bound pid) := by
  simp [handshake, hw, hs]

/-- Claim C1: for an identity registered but not yet bound and with no
pending queue, any sequence `pre` of `postMessage` calls issued before
the handshake is flushed to the channel at binding as USER envelopes in
exactly the original order; the pending queue is empty immediately after
binding; and messages posted after binding follow the flushed ones on the
channel, so the channel carries `pre ++ post` as USER envelopes in
issuance order. -/
theorem pendingQueue_flush_order (st : MasterState) (pid : Int) (w : WorkerObj)
    (connId : Nat) (pre post : List JVal)
    (hw : getk st.workers pid = some w)
    (hs : getk st.workerStreams pid = none)
    (hq : getk st.workerMsgQueue pid = none) :
    getk ((handshake (runPosts pid st pre) connId
        (JVal.arr [JVal.num MSGTYPE_HANDSHAKE, JVal.num pid])).1).workerStreams pid =
      some ⟨connId, pre.map userEnv, false⟩
    ∧ getk ((handshake (runPosts pid st pre) connId
        (JVal.arr [JVal.num MSGTYPE_HANDSHAKE, JVal.num pid])).1).workerMsgQueue pid =
      none
    ∧ getk (runPosts pid ((handshake (runPosts pid st pre) connId
        (JVal.arr [JVal.num MSGTYPE_HANDSHAKE, JVal.num pid])).1) post).workerStreams
        pid = some ⟨connId, (pre ++ post).map userEnv, false⟩ := by
  obtain ⟨hW, hS, hQ⟩ := runPosts_unbound pid w pre st hw hs
  have hw1 : getk (runPosts pid st pre).workers pid = some w := by rw [hW]; exact hw
  have hs1 : getk (runPosts pid st pre).workerStreams pid = none := by
    rw [hS]; exact hs
  have hq1 : ((getk (runPosts pid st pre).workerMsgQueue pid).getD []) = pre := by
    rw [hQ, hq]; simp
  have hhs := handshake_success (runPosts pid st pre) connId pid w hw1 hs1
  rw [hhs] at *
  refine ⟨?_, ?_, ?_⟩
  · simp [getk_setk_self, hq1]
  · simp [getk_delk_self]
  · have hbound := runPosts_bound pid w post
      { runPosts pid st pre with
          workerStreams := (setk (runPosts pid st pre).workerStreams pid
            ⟨connId, ((getk (runPosts pid st pre).workerMsgQueue pid).getD
              []).map userEnv, false⟩),
          workerMsgQueue := delk (runPosts pid st pre).workerMsgQueue pid }
      ⟨connId, pre.map userEnv, false⟩ hw1 (by simp [getk_setk_self, hq1])
    simpa [hq1] using hbound

theorem pendingQueue_flush_order_witness :
    getk exRegistered.workers 4321 = some exWorker
    ∧ getk exRegistered.workerStreams 4321 = none
    ∧ getk exRegistered.workerMsgQueue 4321 = none
    ∧ (getk exBind.workerStreams 4321 = some ⟨2, exPre.map userEnv, false⟩
      ∧ getk exBind.workerMsgQueue 4321 = none
      ∧ getk (runPosts 4321 exBind exPost).workerStreams 4321 =
          some ⟨2, (exPre ++ exPost).map userEnv, false⟩) :=
  ⟨rfl, rfl, rfl,
   pendingQueue_flush_order exRegistered 4321 exWorker 2 exPre exPost rfl rfl rfl⟩

theorem handleMessage_workerStreams (st : MasterState) (p : Int) (m : JVal) :
    ((handleMessage st p m).1).workerStreams = st.workerStreams := by
  rcases hww : getk st.workers p with _ | w
  · simp [handleMessage, hww]
  · cases m with
    | null => simp [handleMessage, hww]
    | num n => simp [handleMessage, hww]
    | str s => simp [handleMessage, hww]
    | arr l =>
      match l with
      | [] => simp [handleMessage, hww]
      | [a] => cases a <;> simp [handleMessage, hww]
      | a :: b :: c :: rest => cases a <;> simp [handleMessage, hww]
      | [a, b] =>
        cases a with
        | null => simp [handleMessage, hww]
        | str s2 => simp [handleMessage, hww]
        | arr l2 => simp [handleMessage, hww]
        | num t =>
          by_cases h0 : t = MSGTYPE_NOOP
          · simp [handleMessage, hww, h0]
          · by_cases h1 : t = MSGTYPE_USER
            · cases h2 : w.onmessage <;>
                simp [handleMessage, hww, h0, h1, h2, MSGTYPE_NOOP, MSGTYPE_USER]
            · simp [handleMessage, hww, h0, h1]

theorem boundConn_addWorker (st : MasterState) (p pid : Int) (w : WorkerObj) :
    boundConn (addWorker st p w) pid = boundConn st pid := rfl

theorem boundConn_post (st : MasterState) (p pid : Int) (m : JVal) (c : Nat)
    (hb : boundConn st pid = some c) :
    boundConn (postMessage st p m).1 pid = some c := by
  rcases hww : getk st.workers p with _ | w
  · simpa [postMessage, hww] using hb
  · rcases hss : getk st.workerStreams p with _ | s
    · simpa [postMessage, hww, hss, boundConn] using hb
    · by_cases hpp : p = pid
      · subst hpp
        have hc : s.connId = c := by simpa [boundConn, hss] using hb
        simp [postMessage, hww, hss, boundConn, getk_setk_self, hc]
      · simpa [postMessage, hww, hss, boundConn, getk_setk_ne _ _ _ _ hpp] using hb

theorem boundConn_handshake (st : MasterState) (cid : Nat) (m : JVal) (pid : Int)
    (c : Nat) (hb : boundConn st pid = some c) :
    boundConn (handshake st cid m).1 pid = some c := by
  cases m with
  | null => simpa [handshake] using hb
  | num n => simpa [handshake] using hb
  | str s => simpa [handshake] using hb
  | arr l =>
    match l with
    | [] => simpa [handshake] using hb
    | [a] => cases a <;> simpa [handshake] using hb
    | a :: b :: c2 :: rest => cases a <;> simpa [handshake] using hb
    | [a, b] =>
      cases a with
      | null => simpa [handshake] using hb
      | str s2 => simpa [handshake] using hb
      | arr l2 => simpa [handshake] using hb
      | num t =>
        by_cases ht : t = MSGTYPE_HANDSHAKE
        · subst ht
          cases b with
          | null => simpa [handshake] using hb
          | str s2 => simpa [handshake] using hb
          | arr l2 => simpa [handshake] using hb
          | num pid2 =>
            rcases hww : getk st.workers pid2 with _ | w
            · simpa [handshake, hww] using hb
            · rcases hss : getk st.workerStreams pid2 with _ | s
              · have hne : pid2 ≠ pid := by
                  intro he; subst he; simp [boundConn, hss] at hb
                simpa [handshake, hww, hss, boundConn,
                  getk_setk_ne _ _ _ _ hne] using hb
              · simpa [handshake, hww, hss] using hb
        · simpa [handshake, ht] using hb

theorem boundConn_step (st : MasterState) (e : Event) (pid : Int) (c : Nat)
    (hb : boundConn st pid = some c) :
    boundConn (step st e) pid = some c := by
  cases e with
  | addW p w => simpa [step, boundConn_addWorker] using hb
  | post p m => exact boundConn_post st p pid m c hb
  | connect cid m => exact boundConn_handshake st cid m pid c hb
  | recv p m =>
    have h := handleMessage_workerStreams st p m
    simp only [step, boundConn, h]
    simpa [boundConn] using hb

theorem boundConn_run (evs : List Event) :
    ∀ (st : MasterState) (pid : Int) (c : Nat), boundConn st pid = some c →
    boundConn (run st evs) pid = some c := by
  induction evs with
  | nil => intro st pid c hb; exact hb
  | cons e es ih =>
    intro st pid c hb
    exact ih (step st e) pid c (boundConn_step st e pid c hb)

/-- Claim C3: once a channel (connection) is bound to an identity it stays
bound to that very connection across any sequence of further operations
(registrations, posts, new connections, steady-state messages) — no
operation replaces or removes it — and any later handshake naming the
same identity is rejected: the rival connection is closed and the state
is returned untouched. -/
theorem binding_permanent (st : MasterState) (pid : Int) (c : Nat)
    (evs : List Event) (connId2 : Nat) (hb : boundConn st pid = some c) :
    boundConn (run st evs) pid = some c
    ∧ handshake st connId2 (JVal.arr [JVal.num MSGTYPE_HANDSHAKE, JVal.num pid]) =
        (st, HandshakeOutcome.closed) := by
  refine ⟨boundConn_run evs st pid c hb, ?_⟩
  rcases hss : getk st.workerStreams pid with _ | s
  · simp [boundConn, hss] at hb
  · simp [handshake, hss]

theorem binding_permanent_witness :
    boundConn exSt3 9 = some 2
    ∧ (boundConn (run exSt3 exEvs) 9 = some 2
      ∧ handshake exSt3 6 (JVal.arr [JVal.num MSGTYPE_HANDSHAKE, JVal.num 9]) =
          (exSt3, HandshakeOutcome.closed)) :=
  ⟨rfl, binding_permanent exSt3 9 2 exEvs 6 rfl⟩
